import Mathlib

/-!
Verification of the sleepme_thermostat integration core
(`custom_components/sleepme_thermostat/{api,coordinator}.py`) by shallow
embedding: the pydantic data model, the HTTP error classification of
`SleepmeApiClient.api_wrapper`, and the coordinator's refresh/mutation
logic are translated into executable Lean definitions, and the spec's
claims are settled as theorems over them.
-/

namespace Sleepme

/-! ## Decimal values

Pydantic parses a JSON number token into a Python `Decimal`, which keeps
the sign, the digit string as an integer mantissa, and the count of
digits after the decimal point (so `1.50` is kept distinct from `1.5`
as a representation while denoting the same value with scale 2).
Serialization writes the same digits back. -/

/-- A `Decimal` as pydantic holds it for the `set_temperature_c` /
`set_temperature_f` / water-temperature fields: sign, mantissa, and the
number of digits after the decimal point. -/
structure Dec where
  neg : Bool
  mantissa : Nat
  scale : Nat
deriving DecidableEq, Repr

/-- Rational value denoted by a `Dec`. -/
def Dec.val (d : Dec) : ℚ :=
  (if d.neg then -1 else 1) * (d.mantissa : ℚ) / ((10 : ℚ) ^ d.scale)

def isDigitChar (c : Char) : Bool :=
  '0' ≤ c && c ≤ '9'

def digitVal (c : Char) : Nat :=
  c.toNat - 48

/-- The decimal digit characters, used when rendering a mantissa. -/
def digitChar : Nat → Char
  | 0 => '0'
  | 1 => '1'
  | 2 => '2'
  | 3 => '3'
  | 4 => '4'
  | 5 => '5'
  | 6 => '6'
  | 7 => '7'
  | 8 => '8'
  | 9 => '9'
  | _ => '0'

/-- Value of a little-endian digit list (least significant first). -/
def valLE : List Char → Nat
  | [] => 0
  | c :: cs => digitVal c + 10 * valLE cs

/-- Value of a big-endian digit list, as written in a number token. -/
def valBE (cs : List Char) : Nat :=
  valLE cs.reverse

/-- Little-endian digits of a natural number, fuelled for structural
recursion (the fuel is an upper bound on the number). -/
def natDigitsLEAux : Nat → Nat → List Char
  | _, 0 => []
  | 0, _ + 1 => []
  | fuel + 1, n + 1 => digitChar ((n + 1) % 10) :: natDigitsLEAux fuel ((n + 1) / 10)

/-- Little-endian digits of a natural number (empty for zero). -/
def natDigitsLE (n : Nat) : List Char :=
  natDigitsLEAux n n

/-- Big-endian digit rendering of a natural number, nonempty. -/
def natToDigitsBE (n : Nat) : List Char :=
  if n = 0 then ['0'] else (natDigitsLE n).reverse

/-- Pad a digit list on the left with zeros to length at least `k`. -/
def padLeft (cs : List Char) (k : Nat) : List Char :=
  List.replicate (k - cs.length) '0' ++ cs

/-- Parse a nonempty all-digit big-endian token. -/
def parseNatDigits (cs : List Char) : Option Nat :=
  if cs ≠ [] ∧ cs.all isDigitChar then some (valBE cs) else none

/-- Parse an unsigned JSON number token (digits, optionally a point and
further digits) into mantissa and scale, as pydantic's `Decimal`
conversion does. -/
def parseUnsigned (cs : List Char) : Option (Nat × Nat) :=
  let ip := cs.takeWhile isDigitChar
  let rest := cs.dropWhile isDigitChar
  if ip = [] then none
  else
    match rest with
    | [] => some (valBE ip, 0)
    | '.' :: fp =>
        if fp ≠ [] ∧ fp.all isDigitChar then
          some (valBE ip * 10 ^ fp.length + valBE fp, fp.length)
        else none
    | _ => none

/-- Parse a signed JSON number token into a `Dec`. -/
def parseDec (s : String) : Option Dec :=
  match s.data with
  | [] => none
  | c :: cs =>
      if c = '-' then (parseUnsigned cs).map (fun p => ⟨true, p.1, p.2⟩)
      else (parseUnsigned (c :: cs)).map (fun p => ⟨false, p.1, p.2⟩)

/-- The digit string of a mantissa, padded so that at least one digit
sits left of the point when `scale` digits go to its right. -/
def serialDigits (m s : Nat) : List Char :=
  padLeft (natToDigitsBE m) (s + 1)

/-- The unsigned number token of mantissa `m` with `s` digits after the
point, exactly as `Decimal` prints it (`(150, 2)` gives `1.50`,
`(5, 2)` gives `0.05`). -/
def serialBody (m s : Nat) : List Char :=
  if s = 0 then serialDigits m s
  else
    (serialDigits m s).take ((serialDigits m s).length - s)
      ++ '.' :: (serialDigits m s).drop ((serialDigits m s).length - s)

/-- Serialize a `Dec` back to its number token. -/
def serializeDec (d : Dec) : String :=
  ⟨if d.neg then '-' :: serialBody d.mantissa d.scale
    else serialBody d.mantissa d.scale⟩

theorem digitVal_digitChar {d : Nat} (h : d < 10) :
    digitVal (digitChar d) = d := by
  interval_cases d <;> decide

theorem isDigitChar_digitChar {d : Nat} (h : d < 10) :
    isDigitChar (digitChar d) = true := by
  interval_cases d <;> decide

theorem valLE_natDigitsLEAux :
    ∀ fuel n, n ≤ fuel → valLE (natDigitsLEAux fuel n) = n := by
  intro fuel
  induction fuel with
  | zero =>
    intro n hn
    interval_cases n
    rfl
  | succ f ih =>
    intro n hn
    match n with
    | 0 => rfl
    | m + 1 =>
      rw [natDigitsLEAux, valLE,
        digitVal_digitChar (Nat.mod_lt _ (by norm_num)),
        ih ((m + 1) / 10) (by omega)]
      omega

theorem valLE_natDigitsLE (n : Nat) : valLE (natDigitsLE n) = n :=
  valLE_natDigitsLEAux n n le_rfl

theorem natDigitsLEAux_all_digits :
    ∀ fuel n, (natDigitsLEAux fuel n).all isDigitChar = true := by
  intro fuel
  induction fuel with
  | zero =>
    intro n
    match n with
    | 0 => rfl
    | _ + 1 => rfl
  | succ f ih =>
    intro n
    match n with
    | 0 => rfl
    | m + 1 =>
      rw [natDigitsLEAux, List.all_cons,
        isDigitChar_digitChar (Nat.mod_lt _ (by norm_num)), ih]
      rfl

theorem natDigitsLE_all_digits (n : Nat) :
    (natDigitsLE n).all isDigitChar = true :=
  natDigitsLEAux_all_digits n n

theorem valLE_append (as bs : List Char) :
    valLE (as ++ bs) = valLE as + 10 ^ as.length * valLE bs := by
  induction as with
  | nil => simp [valLE]
  | cons a as ih =>
    show digitVal a + 10 * valLE (as ++ bs)
      = digitVal a + 10 * valLE as + 10 ^ (a :: as).length * valLE bs
    rw [ih, List.length_cons]
    ring

theorem valBE_natToDigitsBE (n : Nat) : valBE (natToDigitsBE n) = n := by
  unfold natToDigitsBE valBE
  split
  · simp_all [valLE, digitVal]
  · rw [List.reverse_reverse, valLE_natDigitsLE]

theorem natToDigitsBE_all_digits (n : Nat) :
    (natToDigitsBE n).all isDigitChar = true := by
  unfold natToDigitsBE
  split
  · decide
  · rw [List.all_eq_true] at *
    intro c hc
    have := natDigitsLE_all_digits n
    rw [List.all_eq_true] at this
    exact this c (List.mem_reverse.mp hc)

theorem padLeft_all_digits (cs : List Char) (k : Nat)
    (h : cs.all isDigitChar = true) :
    (padLeft cs k).all isDigitChar = true := by
  rw [padLeft, List.all_append, h, Bool.and_true, List.all_eq_true]
  intro c hc
  rw [List.eq_of_mem_replicate hc]
  decide

theorem valBE_padLeft (cs : List Char) (k : Nat) :
    valBE (padLeft cs k) = valBE cs := by
  unfold padLeft valBE
  rw [List.reverse_append, valLE_append]
  have hz : valLE (List.replicate (k - cs.length) '0').reverse = 0 := by
    rw [List.reverse_replicate]
    induction (k - cs.length) with
    | zero => rfl
    | succ m ih => rw [List.replicate_succ, valLE, ih]; decide
  rw [hz]
  omega

theorem padLeft_length (cs : List Char) (k : Nat) :
    k ≤ (padLeft cs k).length := by
  rw [padLeft, List.length_append, List.length_replicate]
  omega

theorem takeWhile_of_all {α : Type} {p : α → Bool} {l : List α}
    (h : l.all p = true) : l.takeWhile p = l := by
  induction l with
  | nil => rfl
  | cons a as ih =>
    rw [List.all_cons, Bool.and_eq_true] at h
    rw [List.takeWhile_cons, if_pos h.1, ih h.2]

theorem dropWhile_of_all {α : Type} {p : α → Bool} {l : List α}
    (h : l.all p = true) : l.dropWhile p = [] := by
  induction l with
  | nil => rfl
  | cons a as ih =>
    rw [List.all_cons, Bool.and_eq_true] at h
    rw [List.dropWhile_cons, if_pos h.1, ih h.2]

theorem takeWhile_append_stop {α : Type} {p : α → Bool} {x : α}
    {l₁ l₂ : List α} (hx : p x = false) (h : l₁.all p = true) :
    (l₁ ++ x :: l₂).takeWhile p = l₁ := by
  induction l₁ with
  | nil => simp [List.takeWhile_cons, hx]
  | cons a as ih =>
    rw [List.all_cons, Bool.and_eq_true] at h
    rw [List.cons_append, List.takeWhile_cons, if_pos h.1, ih h.2]

theorem dropWhile_append_stop {α : Type} {p : α → Bool} {x : α}
    {l₁ l₂ : List α} (hx : p x = false) (h : l₁.all p = true) :
    (l₁ ++ x :: l₂).dropWhile p = x :: l₂ := by
  induction l₁ with
  | nil => simp [List.dropWhile_cons, hx]
  | cons a as ih =>
    rw [List.all_cons, Bool.and_eq_true] at h
    rw [List.cons_append, List.dropWhile_cons, if_pos h.1, ih h.2]

theorem valBE_append (as bs : List Char) :
    valBE (as ++ bs) = valBE as * 10 ^ bs.length + valBE bs := by
  unfold valBE
  rw [List.reverse_append, valLE_append, List.length_reverse]
  ring

theorem serialDigits_all (m s : Nat) :
    (serialDigits m s).all isDigitChar = true :=
  padLeft_all_digits _ _ (natToDigitsBE_all_digits m)

theorem serialDigits_length (m s : Nat) :
    s + 1 ≤ (serialDigits m s).length :=
  padLeft_length _ _

theorem valBE_serialDigits (m s : Nat) : valBE (serialDigits m s) = m := by
  rw [serialDigits, valBE_padLeft, valBE_natToDigitsBE]

/-- Parsing the unsigned rendering recovers mantissa and scale. -/
theorem parseUnsigned_serialBody (m s : Nat) :
    parseUnsigned (serialBody m s) = some (m, s) := by
  rcases Nat.eq_zero_or_pos s with hs | hs
  · subst hs
    rw [serialBody, if_pos rfl, parseUnsigned]
    have hall := serialDigits_all m 0
    have hlen := serialDigits_length m 0
    rw [takeWhile_of_all hall, dropWhile_of_all hall]
    simp only []
    rw [if_neg (by
      intro hnil
      rw [hnil] at hlen
      simp at hlen)]
    rw [valBE_serialDigits]
  · have hall := serialDigits_all m s
    have hlen := serialDigits_length m s
    set digs := serialDigits m s with hdigs
    set k := digs.length - s with hk
    have hsplit : digs = digs.take k ++ digs.drop k :=
      (List.take_append_drop k digs).symm
    have hallt : (digs.take k).all isDigitChar = true := by
      rw [List.all_eq_true] at hall ⊢
      exact fun c hc => hall c (List.mem_of_mem_take hc)
    have halld : (digs.drop k).all isDigitChar = true := by
      rw [List.all_eq_true] at hall ⊢
      exact fun c hc => hall c (List.mem_of_mem_drop hc)
    have hlt : (digs.take k).length = k := by
      rw [List.length_take]
      omega
    have hld : (digs.drop k).length = s := by
      rw [List.length_drop]
      omega
    rw [serialBody, if_neg (by omega), ← hdigs, ← hk, parseUnsigned]
    rw [takeWhile_append_stop (by decide) hallt,
      dropWhile_append_stop (by decide) hallt]
    simp only []
    rw [if_neg (by
      intro hnil
      rw [hnil] at hlt
      simp at hlt
      omega)]
    rw [if_pos (by
      constructor
      · intro hnil
        rw [hnil] at hld
        simp at hld
        omega
      · exact halld)]
    have hval : valBE (digs.take k) * 10 ^ (digs.drop k).length
        + valBE (digs.drop k) = m := by
      rw [← valBE_append, ← hsplit, hdigs, valBE_serialDigits]
    rw [hval, hld]

theorem serialBody_exists_head (m s : Nat) :
    ∃ c bs, serialBody m s = c :: bs ∧ isDigitChar c = true := by
  have hall := serialDigits_all m s
  have hlen := serialDigits_length m s
  rcases hd : serialDigits m s with _ | ⟨c, rest⟩
  · rw [hd] at hlen
    simp at hlen
  · have hc : isDigitChar c = true := by
      rw [hd, List.all_cons, Bool.and_eq_true] at hall
      exact hall.1
    rcases Nat.eq_zero_or_pos s with hs | hs
    · subst hs
      exact ⟨c, rest, by rw [serialBody, if_pos rfl, hd], hc⟩
    · have hkpos : 1 ≤ (serialDigits m s).length - s := by omega
      rcases hk : (serialDigits m s).length - s with _ | k
      · omega
      · refine ⟨c, rest.take k
          ++ '.' :: (serialDigits m s).drop ((serialDigits m s).length - s),
          ?_, hc⟩
        rw [serialBody, if_neg (by omega), hk, hd, List.take_succ_cons,
          List.cons_append]

/-- Round trip: any `Dec` serialized and re-parsed comes back exactly,
sign, mantissa and scale included. -/
theorem parseDec_serializeDec (d : Dec) :
    parseDec (serializeDec d) = some d := by
  obtain ⟨neg, m, s⟩ := d
  obtain ⟨c, bs, hbody, hc⟩ := serialBody_exists_head m s
  have hcm : c ≠ '-' := by
    intro hcontra
    rw [hcontra] at hc
    exact absurd hc (by decide)
  cases neg
  · show parseDec ⟨serialBody m s⟩ = _
    rw [show (⟨serialBody m s⟩ : String) = ⟨c :: bs⟩ from by rw [hbody]]
    simp only [parseDec]
    rw [if_neg hcm, ← hbody, parseUnsigned_serialBody]
    rfl
  · show parseDec ⟨'-' :: serialBody m s⟩ = _
    simp only [parseDec]
    rw [if_pos trivial, parseUnsigned_serialBody]
    rfl

/-! ## Data model (`api.py`)

The pydantic records `SleepmeDevice`, `SleepmeDevices`,
`SleepmeDeviceAbout`, `SleepmeDeviceControl`, `SleepmeDeviceStatus` and
`SleepmeDeviceState`, together with a small JSON-ish value type `Val`
standing for the Python dicts the coordinator stores (`model_dump`
output merged with dict unpacking). -/

/-- `Literal["f", "c"]` of `display_temperature_unit`. -/
inductive TempUnit
  | f
  | c
deriving DecidableEq, Repr

/-- `Literal["active", "standby"]` of `thermal_control_status`. -/
inductive ThermalStatus
  | active
  | standby
deriving DecidableEq, Repr

def TempUnit.asString : TempUnit → String
  | .f => "f"
  | .c => "c"

def ThermalStatus.asString : ThermalStatus → String
  | .active => "active"
  | .standby => "standby"

/-- A Python value of the dict shape `model_dump` produces (strings,
ints, bools, `Decimal`s, lists, dicts): the shape the mutation methods
write into the cache and the entity platforms read from it. -/
inductive Val
  | str (s : String)
  | int (n : Int)
  | bool (b : Bool)
  | dec (d : Dec)
  | list (xs : List Val)
  | dict (fields : List (String × Val))

/-- `SleepmeDevice`: identity record. -/
structure SleepmeDevice where
  id : String
  name : String
  attachments : List String
deriving DecidableEq, Repr

/-- `SleepmeDevice.is_chilipad_pro`: the capability tag check. -/
def SleepmeDevice.is_chilipad_pro (d : SleepmeDevice) : Bool :=
  d.attachments.contains "CHILIPAD_PRO"

/-- `SleepmeDeviceAbout`. -/
structure SleepmeDeviceAbout where
  firmware_version : String
  ip_address : String
  lan_address : String
  mac_address : String
  model : String
  serial_number : String
deriving DecidableEq, Repr

/-- `SleepmeDeviceControl`. -/
structure SleepmeDeviceControl where
  brightness_level : Int
  display_temperature_unit : TempUnit
  set_temperature_c : Dec
  set_temperature_f : Dec
  thermal_control_status : ThermalStatus
  time_zone : String
deriving DecidableEq, Repr

/-- `SleepmeDeviceStatus`. -/
structure SleepmeDeviceStatus where
  is_connected : Bool
  is_water_low : Bool
  water_level : Int
  water_temperature_c : Dec
  water_temperature_f : Dec
deriving DecidableEq, Repr

/-- `SleepmeDeviceState`: about + control + status. -/
structure SleepmeDeviceState where
  about : SleepmeDeviceAbout
  control : SleepmeDeviceControl
  status : SleepmeDeviceStatus
deriving DecidableEq, Repr

def SleepmeDevice.model_dump (d : SleepmeDevice) : List (String × Val) :=
  [("id", .str d.id), ("name", .str d.name),
   ("attachments", .list (d.attachments.map Val.str))]

def SleepmeDeviceAbout.model_dump (a : SleepmeDeviceAbout) : List (String × Val) :=
  [("firmware_version", .str a.firmware_version),
   ("ip_address", .str a.ip_address),
   ("lan_address", .str a.lan_address),
   ("mac_address", .str a.mac_address),
   ("model", .str a.model),
   ("serial_number", .str a.serial_number)]

def SleepmeDeviceControl.model_dump (c : SleepmeDeviceControl) : List (String × Val) :=
  [("brightness_level", .int c.brightness_level),
   ("display_temperature_unit", .str c.display_temperature_unit.asString),
   ("set_temperature_c", .dec c.set_temperature_c),
   ("set_temperature_f", .dec c.set_temperature_f),
   ("thermal_control_status", .str c.thermal_control_status.asString),
   ("time_zone", .str c.time_zone)]

def SleepmeDeviceStatus.model_dump (s : SleepmeDeviceStatus) : List (String × Val) :=
  [("is_connected", .bool s.is_connected),
   ("is_water_low", .bool s.is_water_low),
   ("water_level", .int s.water_level),
   ("water_temperature_c", .dec s.water_temperature_c),
   ("water_temperature_f", .dec s.water_temperature_f)]

def SleepmeDeviceState.model_dump (s : SleepmeDeviceState) : List (String × Val) :=
  [("about", .dict s.about.model_dump),
   ("control", .dict s.control.model_dump),
   ("status", .dict s.status.model_dump)]

/-- Python dict lookup. -/
def dictLookup {α : Type} (fields : List (String × α)) (k : String) : Option α :=
  match fields with
  | [] => none
  | (k', v) :: rest => if k' = k then some v else dictLookup rest k

/-- Python dict assignment `d[k] = v`: an existing key keeps its
position, a new key is appended at the end. -/
def dictSet {α : Type} (fields : List (String × α)) (k : String) (v : α) :
    List (String × α) :=
  match fields with
  | [] => [(k, v)]
  | (k', v') :: rest => if k' = k then (k', v) :: rest else (k', v') :: dictSet rest k v

/-- Python dict merge `{**a, **b}`. -/
def dictMerge (a b : List (String × Val)) : List (String × Val) :=
  b.foldl (fun acc kv => dictSet acc kv.1 kv.2) a

/-- Read a list of strings out of JSON values (the `attachments`
field's element validation). -/
def valStrings : List Val → Option (List String)
  | [] => some []
  | .str s :: rest => (valStrings rest).map (s :: ·)
  | _ => none

/-- Validation of one device object against the `SleepmeDevice` schema:
`id` and `name` are required strings, `attachments` is an optional list
of strings defaulting to `[]`. -/
def parseDevice : Val → Option SleepmeDevice
  | .dict fields =>
      match dictLookup fields "id", dictLookup fields "name" with
      | some (.str i), some (.str n) =>
          match dictLookup fields "attachments" with
          | some (.list atts) => (valStrings atts).map (fun ss => ⟨i, n, ss⟩)
          | none => some ⟨i, n, []⟩
          | some _ => none
      | _, _ => none
  | _ => none

def parseDeviceList : List Val → Option (List SleepmeDevice)
  | [] => some []
  | v :: rest =>
      match parseDevice v, parseDeviceList rest with
      | some d, some ds => some (d :: ds)
      | _, _ => none

/-- `SleepmeDevices`: the device collection wrapper. -/
structure SleepmeDevices where
  devices : List SleepmeDevice
deriving DecidableEq, Repr

/-- The `model_validator(mode="before")` `validate_devices`: a bare
list is wrapped into `{"devices": data}`, anything else passes
through. -/
def SleepmeDevices.validate_devices (data : Val) : Val :=
  match data with
  | .list xs => .dict [("devices", .list xs)]
  | _ => data

/-- Full validation of a JSON value as `SleepmeDevices`: the before
validator, then the `devices` field parsed as a list of devices. -/
def SleepmeDevices.model_validate (data : Val) : Option SleepmeDevices :=
  match SleepmeDevices.validate_devices data with
  | .dict fields =>
      match dictLookup fields "devices" with
      | some (.list xs) => (parseDeviceList xs).map SleepmeDevices.mk
      | _ => none
  | _ => none

/-- The `model_serializer` `serialize_devices`: dumping a
`SleepmeDevices` yields the bare list of devices, not the wrapper
object. -/
def SleepmeDevices.model_dump (ds : SleepmeDevices) : Val :=
  .list (ds.devices.map (fun d => .dict d.model_dump))

/-! ## ApiClient (`api.py`)

`api_wrapper` is embedded as a function of the limiter's verdict, the
request ingredients, the network-level outcome of the HTTP exchange and
the response-model validation function. The body of its `try` block
yields either a value or a Python exception, and the `except` chain of
the source is the classifier `handleException` applied to that
exception. -/

/-- The raised error taxonomy of `api.py`: `SleepmeApiClientError` and
its three subclasses. -/
inductive ApiError
  | authFailure (msg : String)
  | rateLimit (msg : String)
  | communication (msg : String)
  | generic (msg : String)
deriving DecidableEq, Repr

/-- The Python exceptions that can escape the `try` block of
`api_wrapper`. -/
inductive PyExc
  | timeoutErr (msg : String)
  | clientResponseErr (status : Nat) (msg : String)
  | clientErr (msg : String)
  | gaiErr (msg : String)
  | sleepmeAuthErr (msg : String)
  | sleepmeRateLimitErr (msg : String)
  | validationErr (msg : String)
deriving DecidableEq, Repr

/-- `str(exception)`: the message an exception prints as. -/
def PyExc.message : PyExc → String
  | .timeoutErr m => m
  | .clientResponseErr _ m => m
  | .clientErr m => m
  | .gaiErr m => m
  | .sleepmeAuthErr m => m
  | .sleepmeRateLimitErr m => m
  | .validationErr m => m

/-- `_verify_response_or_raise`: 401/403 raise
`SleepmeApiClientAuthenticationError`, 429 raises
`SleepmeApiClientRateLimitError`, any other status of 400 and above
makes `response.raise_for_status()` raise an
`aiohttp.ClientResponseError`. -/
def verifyResponseOrRaise (status : Nat) : Except PyExc Unit :=
  if status = 401 ∨ status = 403 then
    .error (.sleepmeAuthErr "Invalid credentials")
  else if status = 429 then
    .error (.sleepmeRateLimitErr "Rate limit exceeded")
  else if 400 ≤ status then
    .error (.clientResponseErr status "raise_for_status")
  else .ok ()

/-- What the network did for one request: a response with a status and
body, the `async_timeout` budget expiring, a connection-level
`aiohttp.ClientError`, or a DNS `socket.gaierror`. -/
inductive HttpOutcome
  | response (status : Nat) (body : String)
  | timeoutExpired
  | connectionFailure (msg : String)
  | dnsFailure (msg : String)

/-- The `try` block of `api_wrapper`: send, verify the status, read
and validate the body against the response model. -/
def tryBlock {T : Type} (net : HttpOutcome)
    (parse : String → Except String T) : Except PyExc T :=
  match net with
  | .timeoutExpired => .error (.timeoutErr "timed out")
  | .connectionFailure m => .error (.clientErr m)
  | .dnsFailure m => .error (.gaiErr m)
  | .response status body =>
      match verifyResponseOrRaise status with
      | .error e => .error e
      | .ok _ =>
          match parse body with
          | .ok t => .ok t
          | .error m => .error (.validationErr m)

/-- The `except` chain of `api_wrapper`, in source order:
`TimeoutError` and `(aiohttp.ClientError, socket.gaierror)` become
`SleepmeApiClientCommunicationError`, and the final broad
`except Exception` wraps everything else — including the client's own
`SleepmeApiClientAuthenticationError` and `SleepmeApiClientRateLimitError`
raised inside the `try` — into the generic `SleepmeApiClientError`. -/
def handleException : PyExc → ApiError
  | .timeoutErr m => .communication ("Timeout error fetching information - " ++ m)
  | .clientResponseErr _ m => .communication ("Error fetching information - " ++ m)
  | .clientErr m => .communication ("Error fetching information - " ++ m)
  | .gaiErr m => .communication ("Error fetching information - " ++ m)
  | e => .generic ("Something really wrong happened! - " ++ e.message)

/-- The module-level `HEADERS`. -/
def HEADERS : List (String × String) :=
  [("Content-type", "application/json; charset=UTF-8")]

/-- `HEADERS.copy()` followed by
`headers["Authorization"] = f"Bearer {api_key}"`. -/
def buildHeaders (api_key : String) : List (String × String) :=
  HEADERS ++ [("Authorization", "Bearer " ++ api_key)]

/-- The outgoing request `session.request` is given. -/
structure HttpRequest where
  method : String
  url : String
  headers : List (String × String)
  body : List (String × Val)

/-- Everything one `api_wrapper` call does: whether the advisory rate
limit message was logged, the request that was sent, and the returned
value or raised classified error. -/
structure ApiCallResult (T : Type) where
  rateLimitLogged : Bool
  request : HttpRequest
  result : Except ApiError T

/-- `SleepmeApiClient.api_wrapper`: consult the limiter (log only),
send the request unconditionally, run the `try` body, classify any
exception through the `except` chain. -/
def api_wrapper {T : Type} (limiterOk : Bool) (api_key method url : String)
    (data : List (String × Val)) (net : HttpOutcome)
    (parse : String → Except String T) : ApiCallResult T :=
  { rateLimitLogged := !limiterOk
    request := { method := method, url := url
                 headers := buildHeaders api_key, body := data }
    result :=
      match tryBlock net parse with
      | .ok t => .ok t
      | .error e => .error (handleException e) }

/-- `SleepmeApiClient.async_get_devices`: GET the collection, then
filter to the devices carrying the `CHILIPAD_PRO` attachment. -/
def async_get_devices (limiterOk : Bool) (api_key : String)
    (net : HttpOutcome) (parse : String → Except String SleepmeDevices) :
    Except ApiError (List SleepmeDevice) :=
  match (api_wrapper limiterOk api_key "GET"
      "https://api.developer.sleep.me/v1/devices" [] net parse).result with
  | .error e => .error e
  | .ok devs => .ok (devs.devices.filter (fun d => d.is_chilipad_pro))

/-! ## DeviceControl JSON round trip (`SleepmeDeviceControl`)

Pydantic's `model_validate_json` turns each JSON number token into a
`Decimal` via `parseDec`; `model_dump_json` prints it back via
`serializeDec`. The record is embedded with its raw field tokens. -/

/-- The raw JSON fields of a `DeviceControl` payload: number fields
carried as their literal tokens. -/
structure RawControl where
  brightness_level : Int
  display_temperature_unit : String
  set_temperature_c : String
  set_temperature_f : String
  thermal_control_status : String
  time_zone : String
deriving DecidableEq, Repr

def parseTempUnit (s : String) : Option TempUnit :=
  if s = "f" then some .f else if s = "c" then some .c else none

def parseThermalStatus (s : String) : Option ThermalStatus :=
  if s = "active" then some .active
  else if s = "standby" then some .standby else none

/-- `SleepmeDeviceControl.model_validate_json`: strict validation of a
`DeviceControl` payload, number tokens becoming `Decimal`s. -/
def SleepmeDeviceControl.model_validate_json (r : RawControl) :
    Option SleepmeDeviceControl :=
  match parseDec r.set_temperature_c, parseDec r.set_temperature_f,
      parseTempUnit r.display_temperature_unit,
      parseThermalStatus r.thermal_control_status with
  | some tc, some tf, some u, some th =>
      some ⟨r.brightness_level, u, tc, tf, th, r.time_zone⟩
  | _, _, _, _ => none

/-- `model_dump_json` of a `SleepmeDeviceControl`: `Decimal` fields
print their exact digits back. -/
def SleepmeDeviceControl.model_dump_json (c : SleepmeDeviceControl) : RawControl :=
  ⟨c.brightness_level, c.display_temperature_unit.asString,
   serializeDec c.set_temperature_c, serializeDec c.set_temperature_f,
   c.thermal_control_status.asString, c.time_zone⟩

/-! ## Coordinator (`coordinator.py`)

`SleepmeDataUpdateCoordinator` is embedded over its cache (`self.data`)
and the per-device fetch outcomes. One fact of the source dominates the
refresh path: `_async_setup` stores the pydantic model objects returned
by `async_get_devices` (coordinator.py line 57, api.py line 149) — not
dicts, despite the `list[dict]` annotation — and the coordinator then
subscripts them (`device['name']` in the setup debug line,
`device["id"]` in the update loop) and unpacks them
(`{**device, **data}`). Pydantic `BaseModel` supports none of these
operations, so each such expression raises `TypeError`; the embedding
gives those expressions exactly that semantics. -/

/-- A Python exception of the runtime itself, outside the
`SleepmeApiClientError` taxonomy. -/
inductive PyRuntimeError
  | typeError (msg : String)
deriving DecidableEq, Repr

/-- `device["id"]` / `device['name']` on a pydantic `SleepmeDevice`
model object: `BaseModel` defines no `__getitem__`, so the subscript
raises `TypeError` whatever the key. -/
def deviceGetItem (_d : SleepmeDevice) (_k : String) :
    Except PyRuntimeError String :=
  .error (.typeError "SleepmeDevice object is not subscriptable")

/-- One cache entry: a per-device dict, the shape the entity platforms
read (`entry.get("control")`, `entry.get("status")`) and the mutation
methods write into. -/
abbrev Entry := List (String × Val)

/-- The coordinator's cache `self.data`: dict from device id to entry. -/
abbrev Cache := List (String × Entry)

/-- The dict that a merge of the identity dump with a state dump would
produce: the intended shape of a cache entry, and the shape the entity
platforms consume. Used here to build concrete dict-shaped entries for
the mutation theorems; in the source the corresponding expression
`{**device, **data}` never produces it — see `modelMerge`. -/
def mergeEntry (d : SleepmeDevice) (s : SleepmeDeviceState) : Entry :=
  dictMerge d.model_dump s.model_dump

/-- `{**device, **data}` (coordinator.py line 72) with pydantic model
operands: dict unpacking requires a mapping (an object with `keys`),
which `BaseModel` does not provide, so the expression raises
`TypeError`. -/
def modelMerge (_d : SleepmeDevice) (_s : SleepmeDeviceState) :
    Except PyRuntimeError Entry :=
  .error (.typeError "SleepmeDevice object is not a mapping")

/-- `_async_setup`: store the eligible devices (pydantic model
objects), then log `[device['name'] for device in self._devices]` in a
debug f-string — the subscript raises `TypeError` for any non-empty
list, so setup completes only when no eligible device exists. -/
def coordinatorSetup (remote : List SleepmeDevice) :
    Except PyRuntimeError (List SleepmeDevice) :=
  match remote.filter (fun d => d.is_chilipad_pro) with
  | [] => .ok []
  | d :: rest =>
      match deviceGetItem d "name" with
      | .error e => .error e
      | .ok _ => .ok (d :: rest)

/-- The `for device in self._devices` loop of `_async_update_data`,
statement by statement: `device_id = device["id"]`, then the state
fetch, then `results[device_id] = {**device, **data}`. Returns the
ids whose state fetch was actually issued, and the built `results`
dict or the first escaping exception. For a non-empty device list the
first subscript raises before any fetch is issued. -/
def updateLoop (fetch : String → Except ApiError SleepmeDeviceState) :
    Cache → List SleepmeDevice →
      List String × Except (Sum PyRuntimeError ApiError) Cache
  | results, [] => ([], .ok results)
  | results, d :: rest =>
      match deviceGetItem d "id" with
      | .error e => ([], .error (.inl e))
      | .ok device_id =>
          match fetch device_id with
          | .error e => ([device_id], .error (.inr e))
          | .ok s =>
              match modelMerge d s with
              | .error e => ([device_id], .error (.inl e))
              | .ok entry =>
                  let step := updateLoop fetch (dictSet results device_id entry) rest
                  (device_id :: step.1, step.2)

/-- What `_async_update_data` does overall. `crashed` is an exception
matching neither `except` clause — in particular the `TypeError` of
the model subscript — escaping unclassified and unlogged by this
code. -/
inductive UpdateOutcome
  | success (results : Cache)
  | authFailed (msg : String)
  | updateFailed (e : ApiError)
  | crashed (e : PyRuntimeError)

/-- `_async_update_data`: run the loop;
`SleepmeApiClientAuthenticationError` becomes `ConfigEntryAuthFailed`,
any other `SleepmeApiClientError` is logged and re-raised, and any
other exception escapes as it is. -/
def coordinatorUpdateData (devices : List SleepmeDevice)
    (fetch : String → Except ApiError SleepmeDeviceState) : UpdateOutcome :=
  match (updateLoop fetch [] devices).2 with
  | .ok results => .success results
  | .error (.inr (.authFailure m)) => .authFailed m
  | .error (.inr e) => .updateFailed e
  | .error (.inl e) => .crashed e

/-- Coordinator condition after a cycle: still polling, or halted
pending re-authentication (`ConfigEntryAuthFailed` raised). -/
inductive CoordinatorPhase
  | idle
  | halted
deriving DecidableEq, Repr

/-- One refresh cycle as the surrounding update coordinator sees it:
on success the new results are published as `self.data`; on any raise
the old data stays; only `ConfigEntryAuthFailed` halts polling — both
a re-raised client error and an unclassified `TypeError` leave the
coordinator polling with its old data. -/
def runCycle (oldData : Cache) (devices : List SleepmeDevice)
    (fetch : String → Except ApiError SleepmeDeviceState) :
    Cache × CoordinatorPhase :=
  match coordinatorUpdateData devices fetch with
  | .success results => (results, .idle)
  | .authFailed _ => (oldData, .halted)
  | .updateFailed _ => (oldData, .idle)
  | .crashed _ => (oldData, .idle)

/-- `self.data[device_id]["status"] = v`: in the entry at `device_id`,
the `"status"` key is assigned. -/
def cacheSetStatusKey (data : Cache) (device_id : String) (v : Val) : Cache :=
  data.map (fun kv => if kv.1 = device_id then (kv.1, dictSet kv.2 "status" v) else kv)

/-- Everything a mutation call does: the cache afterwards, how many
listener notifications the method issued, and the propagated result. -/
structure MutationOutcome where
  data : Cache
  listenerNotifies : Nat
  result : Except ApiError Unit

/-- `async_set_device_mode`: call the client; on success assign the
returned control record's dump to the entry's `"status"` key. The
method body contains no listener notification call. -/
def async_set_device_mode (data : Cache) (device_id : String)
    (callResult : Except ApiError SleepmeDeviceControl) : MutationOutcome :=
  match callResult with
  | .error e => ⟨data, 0, .error e⟩
  | .ok status =>
      ⟨cacheSetStatusKey data device_id (.dict status.model_dump), 0, .ok ()⟩

/-- `async_set_device_temperature`: same shape as
`async_set_device_mode`. -/
def async_set_device_temperature (data : Cache) (device_id : String)
    (callResult : Except ApiError SleepmeDeviceControl) : MutationOutcome :=
  match callResult with
  | .error e => ⟨data, 0, .error e⟩
  | .ok status =>
      ⟨cacheSetStatusKey data device_id (.dict status.model_dump), 0, .ok ()⟩

/-- The decimal Fahrenheit target stored under an entry's `"control"`
sub-record, the field `climate.py` reads for the target temperature. -/
def entryControlTempF (e : Entry) : Option Dec :=
  match dictLookup e "control" with
  | some (.dict c) =>
      match dictLookup c "set_temperature_f" with
      | some (.dec d) => some d
      | _ => none
  | _ => none

/-! ## Sample values for witnesses and counterexamples -/

def sampleAbout : SleepmeDeviceAbout :=
  ⟨"5.38.2051", "203.0.113.5", "192.168.1.20", "aa:bb:cc:dd:ee:ff",
   "DP999NA", "2345-67890-123"⟩

def sampleStatus : SleepmeDeviceStatus :=
  ⟨true, false, 100, ⟨false, 20, 0⟩, ⟨false, 68, 0⟩⟩

/-- A control record whose Fahrenheit target is the whole number `t`. -/
def sampleControl (t : Nat) : SleepmeDeviceControl :=
  ⟨100, .f, ⟨false, 21, 0⟩, ⟨false, t, 0⟩, .active, "America/New_York"⟩

def sampleState (t : Nat) : SleepmeDeviceState :=
  ⟨sampleAbout, sampleControl t, sampleStatus⟩

def devA : SleepmeDevice := ⟨"zx-aaa", "Bedroom", ["CHILIPAD_PRO"]⟩

def devB : SleepmeDevice := ⟨"zx-bbb", "Guest Room", ["CHILIPAD_PRO"]⟩

def devC : SleepmeDevice := ⟨"zx-ccc", "Office", []⟩

/-- A mocked client for which `devA` fetches fine and every other
device's fetch raises a `CommunicationError`. -/
def commFailFetch (id : String) : Except ApiError SleepmeDeviceState :=
  if id = "zx-aaa" then .ok (sampleState 70)
  else .error (.communication "Cannot connect to host")

/-- A cache of the dict shape the entity platforms read, with both
devices' Fahrenheit targets at their old values. -/
def priorCache : Cache :=
  [("zx-aaa", mergeEntry devA (sampleState 60)),
   ("zx-bbb", mergeEntry devB (sampleState 61))]

/-! ## Claims -/

/-- C1. The claim says a 401/403 response raises AuthenticationError
and a 429 raises RateLimitError. In the code both are raised inside the
`try` block and re-caught by the trailing broad `except Exception`,
which wraps them into the generic `SleepmeApiClientError`: at a mocked
401, 403 or 429 response, `api_wrapper` raises the generic error, not
the classified one. (The other rows of the mapping — other non-success
statuses, timeout, network failure to CommunicationError and schema
failure to the generic error — do hold, as the last four conjuncts
evaluate.) -/
theorem c1_auth_and_rate_statuses_raise_generic
    (parse : String → Except String SleepmeDeviceState) :
    (api_wrapper true "k" "GET" "https://api.developer.sleep.me/v1/devices/zx-aaa"
        [] (.response 401 "") parse).result
      = .error (.generic "Something really wrong happened! - Invalid credentials")
    ∧ (api_wrapper true "k" "GET" "https://api.developer.sleep.me/v1/devices/zx-aaa"
        [] (.response 403 "") parse).result
      = .error (.generic "Something really wrong happened! - Invalid credentials")
    ∧ (api_wrapper true "k" "GET" "https://api.developer.sleep.me/v1/devices/zx-aaa"
        [] (.response 429 "") parse).result
      = .error (.generic "Something really wrong happened! - Rate limit exceeded")
    ∧ (api_wrapper true "k" "GET" "https://api.developer.sleep.me/v1/devices/zx-aaa"
        [] (.response 500 "") parse).result
      = .error (.communication "Error fetching information - raise_for_status")
    ∧ (api_wrapper true "k" "GET" "https://api.developer.sleep.me/v1/devices/zx-aaa"
        [] .timeoutExpired parse).result
      = .error (.communication "Timeout error fetching information - timed out")
    ∧ (api_wrapper true "k" "GET" "https://api.developer.sleep.me/v1/devices/zx-aaa"
        [] (.connectionFailure "Cannot connect to host") parse).result
      = .error (.communication "Error fetching information - Cannot connect to host")
    ∧ (api_wrapper true "k" "GET" "https://api.developer.sleep.me/v1/devices/zx-aaa"
        [] (.response 200 "not json")
        (fun _ => (.error "validation error" : Except String SleepmeDeviceState))).result
      = .error (.generic "Something really wrong happened! - validation error") :=
  ⟨rfl, rfl, rfl, rfl, rfl, rfl, rfl⟩

/-- C2 counterexample. The spec's two-device scenario: a mocked client
for which `devA`'s state fetch would succeed with a new state (target
70) and `devB`'s would fail with CommunicationError. In the source no
fetch happens at all: the loop raises `TypeError` at `device["id"]`
before its first fetch, and the published cache after the cycle is the
prior cache unchanged — `devA`'s entry still carries the prior target
60, not 70 — refuting both "the remaining devices' fetches are still
performed" and "the succeeding device's entry is updated". -/
theorem c2_no_fetch_attempted_cache_unchanged :
    commFailFetch devA.id = .ok (sampleState 70)
    ∧ commFailFetch devB.id = .error (.communication "Cannot connect to host")
    ∧ (updateLoop commFailFetch [] [devA, devB]).1 = []
    ∧ runCycle priorCache [devA, devB] commFailFetch = (priorCache, .idle)
    ∧ (dictLookup (runCycle priorCache [devA, devB] commFailFetch).1 "zx-aaa").bind
        entryControlTempF = some ⟨false, 60, 0⟩
    ∧ (sampleState 70).control.set_temperature_f = ⟨false, 70, 0⟩
    ∧ (⟨false, 60, 0⟩ : Dec) ≠ ⟨false, 70, 0⟩ :=
  ⟨rfl, rfl, rfl, rfl, rfl, rfl, by decide⟩

/-- C2 (amended). For every refresh cycle with at least one known
device, the cycle aborts before any device's state fetch: the loop's
first statement, `device["id"]`, subscripts a pydantic model and
raises `TypeError`, which matches neither `except` clause of
`_async_update_data`; no fetch is issued, no cache update from this
cycle is published (every entry keeps its prior value), and no
transition to Halted occurs. -/
theorem c2_cycle_crashes_before_first_fetch (oldData : Cache)
    (d : SleepmeDevice) (rest : List SleepmeDevice)
    (fetch : String → Except ApiError SleepmeDeviceState) :
    (updateLoop fetch [] (d :: rest)).1 = []
    ∧ coordinatorUpdateData (d :: rest) fetch
        = .crashed (.typeError "SleepmeDevice object is not subscriptable")
    ∧ runCycle oldData (d :: rest) fetch = (oldData, .idle) :=
  ⟨rfl, rfl, rfl⟩

/-- C3. The claim says a successful mutation replaces the entry's
control sub-record with the server's DeviceControl response and
notifies subscribers exactly once. In the code
`async_set_device_temperature` assigns the control dump to the entry's
`"status"` key instead: after a successful call returning target 72,
the entry's `"control"` sub-record still carries the old 60 target,
the `"status"` key now holds the DeviceControl dump, and the method
issues no listener notification at all. -/
theorem c3_mutation_writes_status_key_and_never_notifies :
    (async_set_device_temperature [("zx-aaa", mergeEntry devA (sampleState 60))]
        "zx-aaa" (.ok (sampleControl 72))).result = .ok ()
    ∧ (dictLookup (async_set_device_temperature
          [("zx-aaa", mergeEntry devA (sampleState 60))]
          "zx-aaa" (.ok (sampleControl 72))).data "zx-aaa").bind
        entryControlTempF = some ⟨false, 60, 0⟩
    ∧ (dictLookup (async_set_device_temperature
          [("zx-aaa", mergeEntry devA (sampleState 60))]
          "zx-aaa" (.ok (sampleControl 72))).data "zx-aaa").bind
        (fun e => dictLookup e "status")
        = some (.dict (sampleControl 72).model_dump)
    ∧ (async_set_device_temperature [("zx-aaa", mergeEntry devA (sampleState 60))]
        "zx-aaa" (.ok (sampleControl 72))).listenerNotifies = 0 :=
  ⟨rfl, rfl, rfl, rfl⟩

/-- C4. When the client call of a mutation operation raises any
classified error, the cache is returned exactly as it was and the same
error propagates unchanged to the caller, for both
`async_set_device_temperature` and `async_set_device_mode`. -/
theorem c4_mutation_error_leaves_cache_untouched
    (data : Cache) (device_id : String) (e : ApiError) :
    async_set_device_temperature data device_id (.error e)
      = ⟨data, 0, .error e⟩
    ∧ async_set_device_mode data device_id (.error e)
      = ⟨data, 0, .error e⟩ :=
  ⟨rfl, rfl⟩

/-- C5. The claim describes the intended merged-dict cache after a
fully successful cycle — the shape the entity platforms read through
`entry.get("control")` / `entry.get("status")` and the coordinator's
own `list[dict]` annotation presupposes. The code cannot produce it:
setup crashes at `device['name']` for any non-empty eligible list, a
cycle over a non-empty device list crashes at `device["id"]` before
its first fetch, and the merge `{**device, **data}` itself would raise
in turn; only the empty setup completes and only the empty cycle
succeeds, so no merged entry is ever built. -/
theorem c5_no_successful_nonempty_cycle :
    coordinatorSetup [devA, devC]
      = .error (.typeError "SleepmeDevice object is not subscriptable")
    ∧ coordinatorUpdateData [devA] (fun _ => .ok (sampleState 70))
        = .crashed (.typeError "SleepmeDevice object is not subscriptable")
    ∧ modelMerge devA (sampleState 70)
        = .error (.typeError "SleepmeDevice object is not a mapping")
    ∧ coordinatorSetup [devC] = .ok []
    ∧ coordinatorUpdateData [] (fun _ => .ok (sampleState 70)) = .success [] :=
  ⟨rfl, rfl, rfl, rfl, rfl⟩

/-- C6. The claim matches the handler the source declares
(`except SleepmeApiClientAuthenticationError` raising
`ConfigEntryAuthFailed`, coordinator.py lines 77-78), but that path is
unreachable: a cycle with a known device raises `TypeError` at
`device["id"]` before any state fetch is issued, so no fetch can raise
AuthenticationError into the handler — even a mocked fetch that would
raise it leaves the coordinator crashing unclassified and polling with
its old data instead of halting. Independently, the client never lets
AuthenticationError escape in the first place: `api_wrapper` rewraps
it generic (the third conjunct, the C1 slip). -/
theorem c6_auth_halted_transition_unreachable :
    coordinatorUpdateData [devA]
        (fun _ => .error (.authFailure "Invalid credentials"))
      = .crashed (.typeError "SleepmeDevice object is not subscriptable")
    ∧ runCycle priorCache [devA]
        (fun _ => .error (.authFailure "Invalid credentials"))
      = (priorCache, .idle)
    ∧ (api_wrapper true "k" "GET"
        "https://api.developer.sleep.me/v1/devices/zx-aaa" []
        (.response 401 "")
        (fun _ => (.error "unused" : Except String SleepmeDeviceState))).result
      = .error (.generic "Something really wrong happened! - Invalid credentials") :=
  ⟨rfl, rfl, rfl⟩

/-- C7. `async_get_devices` on a remote collection returns exactly the
devices carrying the `CHILIPAD_PRO` attachment, as a sublist of the
remote order (no re-sorting), and a second call against the unchanged
remote — even under a different limiter verdict — returns the
structurally identical sequence. -/
theorem c7_listDevices_filters_preserving_order
    (remote : List SleepmeDevice) (limiterOk b2 : Bool)
    (api_key body : String) (parse : String → Except String SleepmeDevices)
    (hparse : parse body = .ok ⟨remote⟩) :
    async_get_devices limiterOk api_key (.response 200 body) parse
      = .ok (remote.filter (fun d => d.is_chilipad_pro))
    ∧ (∀ d, d ∈ remote.filter (fun d => d.is_chilipad_pro)
        ↔ (d ∈ remote ∧ d.is_chilipad_pro = true))
    ∧ (remote.filter (fun d => d.is_chilipad_pro)).Sublist remote
    ∧ async_get_devices limiterOk api_key (.response 200 body) parse
        = async_get_devices b2 api_key (.response 200 body) parse := by
  have h1 : async_get_devices limiterOk api_key (.response 200 body) parse
      = .ok (remote.filter (fun d => d.is_chilipad_pro)) := by
    simp [async_get_devices, api_wrapper, tryBlock, verifyResponseOrRaise, hparse]
  have h2 : async_get_devices b2 api_key (.response 200 body) parse
      = .ok (remote.filter (fun d => d.is_chilipad_pro)) := by
    simp [async_get_devices, api_wrapper, tryBlock, verifyResponseOrRaise, hparse]
  exact ⟨h1, fun d => List.mem_filter, List.filter_sublist remote, h1.trans h2.symm⟩

/-- C7 witness: a mock remote of one eligible and one ineligible
device. -/
theorem c7_listDevices_filters_preserving_order_witness :
    async_get_devices true "k" (.response 200 "mock")
        (fun _ => .ok ⟨[devA, devC]⟩)
      = .ok ([devA, devC].filter (fun d => d.is_chilipad_pro))
    ∧ (∀ d, d ∈ [devA, devC].filter (fun d => d.is_chilipad_pro)
        ↔ (d ∈ [devA, devC] ∧ d.is_chilipad_pro = true))
    ∧ ([devA, devC].filter (fun d => d.is_chilipad_pro)).Sublist [devA, devC]
    ∧ async_get_devices true "k" (.response 200 "mock")
        (fun _ => .ok ⟨[devA, devC]⟩)
      = async_get_devices false "k" (.response 200 "mock")
        (fun _ => .ok ⟨[devA, devC]⟩) :=
  c7_listDevices_filters_preserving_order [devA, devC] true false "k" "mock"
    (fun _ => .ok ⟨[devA, devC]⟩) rfl

/-- C8. The limiter's verdict never prevents or alters the outgoing
request: whatever `can_send_request` reports, `api_wrapper` sends the
same method, url, headers and body, returns the same result, and the
verdict's only effect is whether the rate-limit message is logged. -/
theorem c8_rate_limiter_is_advisory_only {T : Type} (limiterOk : Bool)
    (api_key method url : String) (data : List (String × Val))
    (net : HttpOutcome) (parse : String → Except String T) :
    (api_wrapper limiterOk api_key method url data net parse).request
      = (api_wrapper true api_key method url data net parse).request
    ∧ (api_wrapper limiterOk api_key method url data net parse).result
      = (api_wrapper true api_key method url data net parse).result
    ∧ (api_wrapper limiterOk api_key method url data net parse).rateLimitLogged
      = !limiterOk :=
  ⟨rfl, rfl, rfl⟩

/-- C9. A `DeviceControl` parsed from a JSON payload, when
re-serialized, reproduces number tokens that parse back to the
identical decimal values for both `set_temperature_c` and
`set_temperature_f`: exact decimal equality, digits preserved, no
floating-point drift. -/
theorem c9_deviceControl_decimal_roundtrip (r : RawControl)
    (ctl : SleepmeDeviceControl)
    (h : SleepmeDeviceControl.model_validate_json r = some ctl) :
    parseDec (ctl.model_dump_json).set_temperature_c
      = parseDec r.set_temperature_c
    ∧ parseDec (ctl.model_dump_json).set_temperature_f
      = parseDec r.set_temperature_f := by
  unfold SleepmeDeviceControl.model_validate_json at h
  split at h
  · rename_i tc tf u th htc htf hu hth
    injection h with h
    subst h
    constructor
    · show parseDec (serializeDec tc) = parseDec r.set_temperature_c
      rw [parseDec_serializeDec, htc]
    · show parseDec (serializeDec tf) = parseDec r.set_temperature_f
      rw [parseDec_serializeDec, htf]
  · simp at h

/-- C9 witness: a concrete control payload with tokens `22.5` and
`72`. -/
theorem c9_deviceControl_decimal_roundtrip_witness :
    parseDec ((⟨100, .f, ⟨false, 225, 1⟩, ⟨false, 72, 0⟩, .active,
        "America/New_York"⟩ : SleepmeDeviceControl).model_dump_json).set_temperature_c
      = parseDec "22.5"
    ∧ parseDec ((⟨100, .f, ⟨false, 225, 1⟩, ⟨false, 72, 0⟩, .active,
        "America/New_York"⟩ : SleepmeDeviceControl).model_dump_json).set_temperature_f
      = parseDec "72" :=
  c9_deviceControl_decimal_roundtrip
    ⟨100, "f", "22.5", "72", "active", "America/New_York"⟩
    ⟨100, .f, ⟨false, 225, 1⟩, ⟨false, 72, 0⟩, .active, "America/New_York"⟩
    rfl

theorem valStrings_map_str (ss : List String) :
    valStrings (ss.map Val.str) = some ss := by
  induction ss with
  | nil => rfl
  | cons s rest ih => simp [valStrings, ih]

theorem parseDevice_model_dump (d : SleepmeDevice) :
    parseDevice (.dict d.model_dump) = some d := by
  obtain ⟨i, n, a⟩ := d
  simp [parseDevice, SleepmeDevice.model_dump, dictLookup, valStrings_map_str]

theorem parseDeviceList_map_dump (ds : List SleepmeDevice) :
    parseDeviceList (ds.map (fun d => .dict d.model_dump)) = some ds := by
  induction ds with
  | nil => rfl
  | cons d rest ih => simp [parseDeviceList, parseDevice_model_dump, ih]

/-- C10. A bare top-level JSON array of device objects validates as
the device collection — the before-validator wraps the list into the
`devices` field — and serializing the parsed collection yields the
bare list of device objects again: parse then serialize is the
identity on the list shape. -/
theorem c10_bare_array_validate_dump_roundtrip (ds : List SleepmeDevice) :
    SleepmeDevices.model_validate (.list (ds.map (fun d => .dict d.model_dump)))
      = some ⟨ds⟩
    ∧ SleepmeDevices.model_dump ⟨ds⟩
      = .list (ds.map (fun d => .dict d.model_dump)) := by
  refine ⟨?_, rfl⟩
  simp [SleepmeDevices.model_validate, SleepmeDevices.validate_devices,
    dictLookup, parseDeviceList_map_dump]

end Sleepme
